import Mathlib

/-!
Verification of the design-pattern examples in Bitate/Design-Pattern-CPP.

The development shallowly embeds the three source files:

* `src/Adapter.cpp` — a class adapter and an object adapter, both named
  `TextShape`, adapting a `TextView` to the `Shape` interface.  The two C++
  classes are modelled in the namespaces `ClassAdapter` and `ObjectAdapter`.
* `src/Structural Patterns/Decorator_1.cpp` — the `IBackpack` decorator
  chain; `assemble` writes to `cout`, modelled as the produced `String`.
* `src/Structural Patterns/Decorator.cpp` — declaration-only illustration;
  its forwarding structure is covered by the `Backpack` model.
-/

/-- `Coord` from Adapter.cpp, modelled as an integer coordinate. -/
abbrev Coord : Type := Int

/-- The 2-D `Point` used by `Shape::BoundingBox`; `Point(a, b)` is `Point.mk a b`. -/
structure Point where
  x : Coord
  y : Coord
deriving DecidableEq, Repr

/--
The adaptee `TextView` (Adapter.cpp lines 40-47).  Its observable behaviour
consists of `GetOrigin`, `GetExtent` and `IsEmpty`; a value of this structure
records the results those queries return, so any conforming implementation
(including subclasses overriding the virtual `IsEmpty`) is one such value.
-/
structure TextView where
  originX : Coord
  originY : Coord
  extentW : Coord
  extentH : Coord
  empty : Bool
deriving DecidableEq, Repr

/-- `TextView::GetOrigin(Coord &x, Coord &y)`: yields the origin pair `(x, y)`. -/
def TextView.GetOrigin (t : TextView) : Coord × Coord :=
  (t.originX, t.originY)

/-- `TextView::GetExtent(Coord &width, Coord &height)`: yields `(width, height)`. -/
def TextView.GetExtent (t : TextView) : Coord × Coord :=
  (t.extentW, t.extentH)

/-- `TextView::IsEmpty()`. -/
def TextView.IsEmpty (t : TextView) : Bool :=
  t.empty

/--
The manipulator returned by `CreateManipulator`: `new TextManipulator(this)`
holds a pointer to the shape it was constructed from.  Parametrised over the
shape type because the two adapter variants are distinct classes.
-/
structure TextManipulator (S : Type) where
  subject : S
deriving DecidableEq

namespace ClassAdapter

/--
The class adapter `TextShape` (Adapter.cpp lines 57-98):
`class TextShape : public Shape, private TextView`.  Its state is its private
`TextView` base subobject. -/
structure TextShape where
  toTextView : TextView
deriving DecidableEq, Repr

/--
`TextShape::BoundingBox` (Adapter.cpp lines 81-88), transcribed literally:

    Coord bottom, left, width, height;
    GetOrigin(bottom, left);
    GetExtent(width, height);
    bottomLeft = Point(bottom, left);
    topRight = Point(bottom + height, left + width);

Returns the pair `(bottomLeft, topRight)` written to the out-parameters. -/
def TextShape.BoundingBox (s : TextShape) : Point × Point :=
  let bl := s.toTextView.GetOrigin
  let we := s.toTextView.GetExtent
  let bottom := bl.1
  let left := bl.2
  let width := we.1
  let height := we.2
  (Point.mk bottom left, Point.mk (bottom + height) (left + width))

/-- `TextShape::IsEmpty` (lines 90-93): `return TextView::IsEmpty();`. -/
def TextShape.IsEmpty (s : TextShape) : Bool :=
  s.toTextView.IsEmpty

/-- `TextShape::CreateManipulator` (lines 95-98): `return new TextManipulator(this);`. -/
def TextShape.CreateManipulator (s : TextShape) : TextManipulator TextShape :=
  TextManipulator.mk s

end ClassAdapter

namespace ObjectAdapter

/--
The object adapter `TextShape` (Adapter.cpp lines 116-157): holds the pointer
`TextView* _text` supplied to the constructor (`TextShape::TextShape(TextView* t)
{ _text = t; }`); the field models the pointee. -/
structure TextShape where
  _text : TextView
deriving DecidableEq, Repr

/--
`TextShape::BoundingBox` of the object adapter (Adapter.cpp lines 137-144),
transcribed literally:

    Coord bottom, left, width, height;
    _text->GetOrigin(bottom, left);
    _text->GetExtent(width, height);
    bottomLeft = Point(bottom, left);
    topRight = Point(bottom + height, left + width);
-/
def TextShape.BoundingBox (s : TextShape) : Point × Point :=
  let bl := s._text.GetOrigin
  let we := s._text.GetExtent
  let bottom := bl.1
  let left := bl.2
  let width := we.1
  let height := we.2
  (Point.mk bottom left, Point.mk (bottom + height) (left + width))

/-- The call `_text->GetOrigin(bottom, left)` inside `BoundingBox` (line 140). -/
def TextShape.readOrigin (s : TextShape) : Coord × Coord :=
  s._text.GetOrigin

/-- The call `_text->GetExtent(width, height)` inside `BoundingBox` (line 141). -/
def TextShape.readExtent (s : TextShape) : Coord × Coord :=
  s._text.GetExtent

/-- Object-adapter `TextShape::IsEmpty` (lines 145-148): `return _text->IsEmpty();`. -/
def TextShape.IsEmpty (s : TextShape) : Bool :=
  s._text.IsEmpty

/-- Object-adapter `TextShape::CreateManipulator` (lines 154-157):
`return new TextManipulator(this);`. -/
def TextShape.CreateManipulator (s : TextShape) : TextManipulator TextShape :=
  TextManipulator.mk s

end ObjectAdapter

/-!
## Decorator_1.cpp: the `IBackpack` chain

`IBackpack` declares `virtual void assemble()`.  The concrete object graphs
that can be built from the file's classes are: the leaf `PlainBackpack`, the
plain `BackpackDecorator` wrapping another `IBackpack` via `m_Decorator`,
and the three concrete decorators `WithLaptopSlot`, `WithUSBCharge`,
`WithWaterBottle` (each a `BackpackDecorator` subclass).  `assemble` prints
to `cout`; we model the total text an `assemble` call writes as a `String`.
-/

/-- An `IBackpack` object graph from Decorator_1.cpp. -/
inductive Backpack where
  | plainBackpack : Backpack
  | backpackDecorator : Backpack → Backpack
  | withLaptopSlot : Backpack → Backpack
  | withUSBCharge : Backpack → Backpack
  | withWaterBottle : Backpack → Backpack
deriving DecidableEq, Repr

/--
`assemble()` of each class, as the text it writes to `cout`:

* `PlainBackpack::assemble` (lines 15-18) prints
  `"\n ShoulderStraps and mainCompartment"`;
* `BackpackDecorator::assemble` (lines 32-35) is `m_Decorator->assemble();`;
* each concrete decorator (lines 51-82) first calls
  `BackpackDecorator::assemble();` (which forwards to `m_Decorator`) and then
  prints its own `" + ..."` suffix.
-/
def Backpack.assemble : Backpack → String
  | .plainBackpack => "\n ShoulderStraps and mainCompartment"
  | .backpackDecorator b => b.assemble
  | .withLaptopSlot b => b.assemble ++ " + LaptopSlot"
  | .withUSBCharge b => b.assemble ++ " + USBCharge"
  | .withWaterBottle b => b.assemble ++ " + WaterBottle"

/-- The chain built in `main` (lines 99-104):
`new WithWaterBottle(new WithUSBCharge(new WithLaptopSlot(new BackpackDecorator(new PlainBackpack()))))`. -/
def mainBackpack : Backpack :=
  .withWaterBottle (.withUSBCharge (.withLaptopSlot
    (.backpackDecorator .plainBackpack)))

/-- One decorator layer: which of the four decorator classes wraps the next node. -/
inductive Layer where
  | backpackDecorator : Layer
  | withLaptopSlot : Layer
  | withUSBCharge : Layer
  | withWaterBottle : Layer
deriving DecidableEq, Repr

/-- Constructing one layer around an existing `IBackpack` (passing it to the
layer's constructor). -/
def Layer.wrap : Layer → Backpack → Backpack
  | .backpackDecorator, b => .backpackDecorator b
  | .withLaptopSlot, b => .withLaptopSlot b
  | .withUSBCharge, b => .withUSBCharge b
  | .withWaterBottle, b => .withWaterBottle b

/-- The text a layer's own `assemble` body prints after forwarding: its
augmentation (`BackpackDecorator` itself prints nothing). -/
def Layer.augmentation : Layer → String
  | .backpackDecorator => ""
  | .withLaptopSlot => " + LaptopSlot"
  | .withUSBCharge => " + USBCharge"
  | .withWaterBottle => " + WaterBottle"

/-- Building a chain innermost-first, as construction in `main` does: the
list goes inner to outer, each element wrapping the object built so far. -/
def buildChain (base : Backpack) : List Layer → Backpack
  | [] => base
  | l :: ls => buildChain (l.wrap base) ls

example : Backpack.assemble mainBackpack
    = "\n ShoulderStraps and mainCompartment + LaptopSlot + USBCharge + WaterBottle" := by
  decide

example :
    buildChain .plainBackpack
      [.backpackDecorator, .withLaptopSlot, .withUSBCharge, .withWaterBottle]
      = mainBackpack := by decide

/-!
## Call frames

`Shape::BoundingBox(Point &bottomLeft, Point &topRight) const` communicates
through reference out-parameters.  A `CallFrame` holds the adapter object and
the two caller-side `Point` slots, so a call is a function on frames and we
can state which parts of the frame it writes.
-/

/-- The state visible to a `BoundingBox` call: the (const) adapter object and
the caller's two `Point` out-parameter slots. -/
structure CallFrame (S : Type) where
  shape : S
  bottomLeft : Point
  topRight : Point
deriving DecidableEq, Repr

/-- The class-adapter `TextShape::BoundingBox` call acting on a frame: the
body (Adapter.cpp lines 81-88) only assigns `bottomLeft` and `topRight`; the
method is `const`, so the adapter object (and its private `TextView` base) is
read only. -/
def ClassAdapter.BoundingBoxCall
    (c : CallFrame ClassAdapter.TextShape) : CallFrame ClassAdapter.TextShape :=
  let bl := c.shape.toTextView.GetOrigin
  let we := c.shape.toTextView.GetExtent
  { c with
    bottomLeft := Point.mk bl.1 bl.2
    topRight := Point.mk (bl.1 + we.2) (bl.2 + we.1) }

/-- The object-adapter `TextShape::BoundingBox` call acting on a frame
(Adapter.cpp lines 137-144); assigns only the two out-parameter slots. -/
def ObjectAdapter.BoundingBoxCall
    (c : CallFrame ObjectAdapter.TextShape) : CallFrame ObjectAdapter.TextShape :=
  let bl := c.shape._text.GetOrigin
  let we := c.shape._text.GetExtent
  { c with
    bottomLeft := Point.mk bl.1 bl.2
    topRight := Point.mk (bl.1 + we.2) (bl.2 + we.1) }

/-- A call to the class-adapter `TextShape::IsEmpty` (`const`, no parameters):
its result together with the frame after the call. -/
def ClassAdapter.IsEmptyCall
    (c : CallFrame ClassAdapter.TextShape) : Bool × CallFrame ClassAdapter.TextShape :=
  (c.shape.IsEmpty, c)

/-- A call to the object-adapter `TextShape::IsEmpty` (`const`, no parameters). -/
def ObjectAdapter.IsEmptyCall
    (c : CallFrame ObjectAdapter.TextShape) : Bool × CallFrame ObjectAdapter.TextShape :=
  (c.shape.IsEmpty, c)

/-!
## Helper lemmas
-/

/-- Wrapping one layer appends exactly that layer's augmentation to the
wrapped object's `assemble` output. -/
theorem assemble_wrap (l : Layer) (b : Backpack) :
    (l.wrap b).assemble = b.assemble ++ l.augmentation := by
  cases l <;>
    simp [Layer.wrap, Layer.augmentation, Backpack.assemble]

/-!
## Claims
-/

/-- C1.  The claim says `BoundingBox` does not mix axes and on origin `(0,0)`,
extent `(width, height) = (10, 5)` yields top-right `(10, 5)`.  The code does
mix axes: on that wrapped state both adapter variants return top-right
`(5, 10)` (`topRight = Point(bottom + height, left + width)` puts the height
into the x coordinate), which differs from the claimed `(10, 5)`. -/
theorem boundingBox_swaps_axes_on_example :
    (ClassAdapter.TextShape.mk (TextView.mk 0 0 10 5 false)).BoundingBox
        = (Point.mk 0 0, Point.mk 5 10)
      ∧ (ObjectAdapter.TextShape.mk (TextView.mk 0 0 10 5 false)).BoundingBox
        = (Point.mk 0 0, Point.mk 5 10)
      ∧ Point.mk 5 10 ≠ Point.mk (10 : Coord) 5 := by
  refine ⟨by decide, by decide, by decide⟩

/-- C2 counterexample.  Assembling the `main` chain does not produce exactly
the string `"ShoulderStraps and mainCompartment + LaptopSlot + USBCharge +
WaterBottle"`: the base layer's print begins with a newline and a space. -/
theorem mainBackpack_assemble_ne_claimed_string :
    mainBackpack.assemble
      ≠ "ShoulderStraps and mainCompartment + LaptopSlot + USBCharge + WaterBottle" := by
  decide

/-- C2 (amended).  Assembling the `main` chain — plain base, then
`BackpackDecorator`, then laptop slot, then USB charge, then water bottle —
produces the concatenated description in layering order, preceded by the
newline and space the base layer prints: `"\n ShoulderStraps and
mainCompartment + LaptopSlot + USBCharge + WaterBottle"`. -/
theorem mainBackpack_assemble_eq :
    mainBackpack.assemble
      = "\n ShoulderStraps and mainCompartment + LaptopSlot + USBCharge + WaterBottle" := by
  decide

/-- C3.  For every composition of `N ≥ 0` decorator layers around a base
`IBackpack` (built innermost-first, as in `main`), `assemble` on the
outermost node produces the base's output followed by each layer's
augmentation exactly once, in inner-to-outer order: the fold appends the
augmentations left to right along the inner-to-outer layer list. -/
theorem assemble_buildChain_augments_in_order (ls : List Layer) (b : Backpack) :
    (buildChain b ls).assemble
      = ls.foldl (fun out l => out ++ l.augmentation) b.assemble := by
  induction ls generalizing b with
  | nil => rfl
  | cons l ls ih =>
      simp only [buildChain, List.foldl_cons, ih (l.wrap b), assemble_wrap]

/-- C4.  The object adapter delegates every passthrough operation to the
`TextView` supplied at construction: the origin and extent reads inside
`BoundingBox` and the `IsEmpty` forward each return exactly the supplied
object's result, for every conforming `TextView`. -/
theorem objectAdapter_delegates_passthrough (t : TextView) :
    (ObjectAdapter.TextShape.mk t).readOrigin = t.GetOrigin
      ∧ (ObjectAdapter.TextShape.mk t).readExtent = t.GetExtent
      ∧ (ObjectAdapter.TextShape.mk t).IsEmpty = t.IsEmpty := by
  exact ⟨rfl, rfl, rfl⟩

/-- C5.  The class adapter's `BoundingBox` is deterministic in the wrapped
object's origin and extent: two wrapped states agreeing on `GetOrigin` and
`GetExtent` (they may differ elsewhere, e.g. on emptiness) produce equal
bottom-left and top-right points. -/
theorem classAdapter_boundingBox_deterministic (t₁ t₂ : TextView)
    (ho : t₁.GetOrigin = t₂.GetOrigin) (he : t₁.GetExtent = t₂.GetExtent) :
    (ClassAdapter.TextShape.mk t₁).BoundingBox
      = (ClassAdapter.TextShape.mk t₂).BoundingBox := by
  simp only [ClassAdapter.TextShape.BoundingBox, ho, he]

/-- C5 witness: two wrapped states sharing origin `(1,2)` and extent `(3,4)`
but with opposite emptiness flags get the same bounding box. -/
theorem classAdapter_boundingBox_deterministic_witness :
    (TextView.mk 1 2 3 4 false).GetOrigin = (TextView.mk 1 2 3 4 true).GetOrigin
      ∧ (TextView.mk 1 2 3 4 false).GetExtent = (TextView.mk 1 2 3 4 true).GetExtent
      ∧ (ClassAdapter.TextShape.mk (TextView.mk 1 2 3 4 false)).BoundingBox
          = (ClassAdapter.TextShape.mk (TextView.mk 1 2 3 4 true)).BoundingBox :=
  ⟨by decide, by decide,
    classAdapter_boundingBox_deterministic
      (TextView.mk 1 2 3 4 false) (TextView.mk 1 2 3 4 true)
      (by decide) (by decide)⟩

/-- C6.  Both adapter variants' `IsEmpty` return exactly the wrapped
`TextView`'s `IsEmpty` result, with no transformation. -/
theorem isEmpty_passthrough_both_adapters (t : TextView) :
    (ClassAdapter.TextShape.mk t).IsEmpty = t.IsEmpty
      ∧ (ObjectAdapter.TextShape.mk t).IsEmpty = t.IsEmpty := by
  exact ⟨rfl, rfl⟩

/-- C7.  For both adapter variants, `CreateManipulator` returns a manipulator
whose subject is the adapter instance itself (its type is the adapter type,
not `TextView`, so it cannot be associated with the wrapped view). -/
theorem createManipulator_subject_is_adapter
    (s : ClassAdapter.TextShape) (r : ObjectAdapter.TextShape) :
    (s.CreateManipulator).subject = s ∧ (r.CreateManipulator).subject = r := by
  exact ⟨rfl, rfl⟩

/-- C8.  The plain `BackpackDecorator` layer is an observable identity: for
every `IBackpack` `b`, wrapping `b` in a bare `BackpackDecorator` yields an
object whose `assemble` output equals `b`'s. -/
theorem backpackDecorator_is_identity (b : Backpack) :
    (Backpack.backpackDecorator b).assemble = b.assemble := by
  rfl

/-- C9.  The class-adapter and object-adapter `TextShape` are observably
equivalent: wrapped states agreeing on origin, extent and emptiness give
equal `BoundingBox` results and equal `IsEmpty` results across the two
variants. -/
theorem adapters_observably_equivalent (t₁ t₂ : TextView)
    (ho : t₁.GetOrigin = t₂.GetOrigin) (he : t₁.GetExtent = t₂.GetExtent)
    (hb : t₁.IsEmpty = t₂.IsEmpty) :
    (ClassAdapter.TextShape.mk t₁).BoundingBox
        = (ObjectAdapter.TextShape.mk t₂).BoundingBox
      ∧ (ClassAdapter.TextShape.mk t₁).IsEmpty
        = (ObjectAdapter.TextShape.mk t₂).IsEmpty := by
  constructor
  · simp only [ClassAdapter.TextShape.BoundingBox,
      ObjectAdapter.TextShape.BoundingBox, ho, he]
  · simp only [ClassAdapter.TextShape.IsEmpty,
      ObjectAdapter.TextShape.IsEmpty, hb]

/-- C9 witness: at the wrapped state with origin `(0,0)`, extent `(10,5)`,
non-empty, both variants agree on `BoundingBox` and `IsEmpty`. -/
theorem adapters_observably_equivalent_witness :
    (ClassAdapter.TextShape.mk (TextView.mk 0 0 10 5 false)).BoundingBox
        = (ObjectAdapter.TextShape.mk (TextView.mk 0 0 10 5 false)).BoundingBox
      ∧ (ClassAdapter.TextShape.mk (TextView.mk 0 0 10 5 false)).IsEmpty
        = (ObjectAdapter.TextShape.mk (TextView.mk 0 0 10 5 false)).IsEmpty :=
  adapters_observably_equivalent
    (TextView.mk 0 0 10 5 false) (TextView.mk 0 0 10 5 false)
    (by decide) (by decide) (by decide)

/-- C10.  The query operations are read-only: for every call frame, a
`BoundingBox` call on either variant leaves the adapter object — and with it
the wrapped `TextView` state — unchanged, writing only the `bottomLeft` and
`topRight` out-parameter slots (which receive exactly the `BoundingBox`
values); an `IsEmpty` call leaves the whole frame unchanged. -/
theorem boundingBox_isEmpty_read_only
    (c : CallFrame ClassAdapter.TextShape) (d : CallFrame ObjectAdapter.TextShape) :
    ((ClassAdapter.BoundingBoxCall c).shape = c.shape
        ∧ (ClassAdapter.BoundingBoxCall c).bottomLeft = (c.shape.BoundingBox).1
        ∧ (ClassAdapter.BoundingBoxCall c).topRight = (c.shape.BoundingBox).2
        ∧ (ClassAdapter.IsEmptyCall c).2 = c)
      ∧ ((ObjectAdapter.BoundingBoxCall d).shape = d.shape
        ∧ (ObjectAdapter.BoundingBoxCall d).bottomLeft = (d.shape.BoundingBox).1
        ∧ (ObjectAdapter.BoundingBoxCall d).topRight = (d.shape.BoundingBox).2
        ∧ (ObjectAdapter.IsEmptyCall d).2 = d) := by
  exact ⟨⟨rfl, rfl, rfl, rfl⟩, ⟨rfl, rfl, rfl, rfl⟩⟩
